import Mathlib

/-!
Verification of the navigation/panel controller of the BugBustersUnipd
documentation site against its JavaScript sources.

The scripts are shallowly embedded: the DOM fragments the handlers touch
become Lean structures, each event handler becomes a pure function from the
relevant state to the updated state, and browser side effects that carry no
state the scripts later read (smooth scrolling, focus moves, screen-reader
announcements) are either recorded as explicit effect fields or noted in the
doc comment of the embedding.
-/

/-! ## Document panels (SITO/script.js and unnamed/part_000)

A `.doc-panel` element carries an `active` CSS class and an `aria-hidden`
attribute; a `.doc-toggle` button carries a `data-show` attribute, an
`active` class and `aria-selected`.  `getElementById` is modelled as the
first element of the panel list with the requested id, matching the pages in
which every `panel-*` element is one of the `.doc-panel` elements. -/

structure Panel where
  id : String
  active : Bool
  ariaHidden : String
deriving DecidableEq

structure Toggle where
  dataShow : Option String
  active : Bool
  ariaSelected : String
deriving DecidableEq

structure DocDom where
  panels : List Panel
  toggles : List Toggle
deriving DecidableEq

/-- `p.classList.remove('active'); p.setAttribute('aria-hidden','true')`. -/
def deactivatePanel (p : Panel) : Panel :=
  { p with active := false, ariaHidden := "true" }

/-- `active.classList.add('active'); active.setAttribute('aria-hidden','false')`. -/
def activatePanel (p : Panel) : Panel :=
  { p with active := true, ariaHidden := "false" }

/-- Mutation through `document.getElementById`: the first element with the
given id is replaced by `f` of it; all others are untouched. -/
def updateFirstWithId (pid : String) (f : Panel → Panel) : List Panel → List Panel
  | [] => []
  | p :: ps => if p.id == pid then f p :: ps else p :: updateFirstWithId pid f ps

/-- `document.getElementById(pid) !== null`, over the modelled panel list. -/
def getByIdExists (pid : String) (ps : List Panel) : Bool :=
  ps.any (fun p => p.id == pid)

/-- One step of the `docToggles.forEach` loop of `showDocPanel`:
`btn.classList.toggle('active', btn.getAttribute('data-show') === name)`
followed by `btn.setAttribute('aria-selected', ...)`. -/
def toggleUpdate (name : String) (b : Toggle) : Toggle :=
  let isActive := b.dataShow == some name
  { b with active := isActive, ariaSelected := if isActive then "true" else "false" }

/-- `showDocPanel(name)` from `unnamed/part_000` (both copies, lines 36-77 and
136-180): hide every `.doc-panel`, activate `panel-` + name if it exists and
otherwise fall back to `panel-candidatura`, then refresh every `.doc-toggle`.
The trailing scroll to the `#candidatura .page-title` element and the focus
move do not change any state read elsewhere and are not modelled. -/
def showDocPanel (name : String) (d : DocDom) : DocDom :=
  let cleared := d.panels.map deactivatePanel
  let pid := "panel-" ++ name
  let panels :=
    if getByIdExists pid cleared then
      updateFirstWithId pid activatePanel cleared
    else if getByIdExists "panel-candidatura" cleared then
      updateFirstWithId "panel-candidatura" activatePanel cleared
    else cleared
  { panels := panels, toggles := d.toggles.map (toggleUpdate name) }

/-- `showDocPanel(name)` from `SITO/script.js` lines 31-46: the target id is
computed as `name === 'diapositive' ? 'panel-diapositive' : 'panel-candidatura'`
(no fallback branch), and the toggles are compared against the same
collapsed name. -/
def sitoShowDocPanel (name : String) (d : DocDom) : DocDom :=
  let cleared := d.panels.map deactivatePanel
  let pid := if name == "diapositive" then "panel-diapositive" else "panel-candidatura"
  let panels :=
    if getByIdExists pid cleared then updateFirstWithId pid activatePanel cleared
    else cleared
  let shown := if name == "diapositive" then "diapositive" else "candidatura"
  { panels := panels, toggles := d.toggles.map (toggleUpdate shown) }

/-- The panel names recognised by `checkHashOnLoad` (`unnamed/part_000`
line 232). -/
def knownPanelNames : List String := ["candidatura", "diapositive", "rtb"]

/-- `checkHashOnLoad` from `unnamed/part_000` lines 230-235:
`const hash = window.location.hash.substring(1);` then
`if (hash && ['candidatura','diapositive','rtb'].includes(hash)) showDocPanel(hash)`.
The same function is installed as the `hashchange` listener, so it also
models every later fragment change. -/
def checkHashOnLoad (locationHash : String) (d : DocDom) : DocDom :=
  let hash := locationHash.drop 1
  if hash != "" && knownPanelNames.contains hash then showDocPanel hash d else d

/-! ## Anchor-click handlers

The observable outcome of one click on an `a[href^="#"]` element: whether
`e.preventDefault()` ran, whether `target.scrollIntoView` ran, and which
panel name (if any) was passed to `showDocPanel`. -/

/-- `s.startsWith p`, computed on the underlying character lists so that the
kernel can evaluate it (`String.startsWith` itself does not reduce). -/
def strStartsWith (s p : String) : Bool :=
  p.data.isPrefixOf s.data

/-- `s.trim`, computed on the underlying character lists (`String.trim`
itself does not reduce in the kernel). -/
def strTrim (s : String) : String :=
  String.mk (((s.data.dropWhile Char.isWhitespace).reverse.dropWhile Char.isWhitespace).reverse)

structure ClickEffects where
  prevented : Bool
  scrolledToTarget : Bool
  panelShown : Option String
deriving DecidableEq

def noClickEffects : ClickEffects :=
  { prevented := false, scrolledToTarget := false, panelShown := none }

/-- The anchor click handler of `unnamed/part_000` lines 3-21 (and 100-121):
when the href starts with `#` and the target element exists, a present and
non-empty `data-doc` routes the click to `showDocPanel` and returns before
the scroll; otherwise the handler smooth-scrolls to the target.
`targetExists` models `document.querySelector(href) !== null`. -/
def anchorClick (href dataDoc : Option String) (targetExists : Bool) : ClickEffects :=
  match href with
  | none => noClickEffects
  | some h =>
    if h != "" && strStartsWith h "#" then
      if targetExists then
        if (dataDoc.getD "") != "" then
          { prevented := true, scrolledToTarget := false,
            panelShown := some (dataDoc.getD "") }
        else
          { prevented := true, scrolledToTarget := true, panelShown := none }
      else noClickEffects
    else noClickEffects

/-- The anchor click handler of `SITO/script.js` lines 9-25: when the target
exists it always prevents the default and always calls
`target.scrollIntoView`, and afterwards additionally calls `showDocPanel`
when `data-doc` is present and non-empty. -/
def sitoAnchorClick (href dataDoc : Option String) (targetExists : Bool) : ClickEffects :=
  match href with
  | none => noClickEffects
  | some h =>
    if h != "" && strStartsWith h "#" then
      if targetExists then
        { prevented := true, scrolledToTarget := true,
          panelShown := if (dataDoc.getD "") != "" then some (dataDoc.getD "") else none }
      else noClickEffects
    else noClickEffects

/-! ## Collapsible folder sections (SITO ACCESSIBILE/script.js)

A `.folder-header` element carries a `data-folder` key; its content region
is the element with id `key + "-content"` and is modelled directly as the
`content` field (resolving the `getElementById` derivation).  Attributes
that the script tests with `hasAttribute` are modelled as `Option String`
(`none` = attribute absent). -/

structure FolderContent where
  expandedClass : Bool
  ariaHidden : Option String
  role : Option String
deriving DecidableEq

structure FolderSection where
  key : String
  content : Option FolderContent
  role : Option String
  tabindex : Option String
  ariaExpanded : Option String
  icon : Option String
deriving DecidableEq

/-- `setCollapsedState(header, collapsed)` from `SITO ACCESSIBILE/script.js`
lines 119-142: with no content region it returns immediately; otherwise it
sets the `expanded` class, `aria-hidden`, `aria-expanded` and — when a
`.toggle-icon` child exists — the icon glyph (`+` collapsed, `−` expanded).
The closing `announceToScreenReader` call writes only to the transient
`aria-announcer` live region and is not modelled. -/
def setCollapsedState (header : FolderSection) (collapsed : Bool) : FolderSection :=
  match header.content with
  | none => header
  | some c =>
    if collapsed then
      { header with
        content := some { c with expandedClass := false, ariaHidden := some "true" },
        ariaExpanded := some "false",
        icon := header.icon.map (fun _ => "+") }
    else
      { header with
        content := some { c with expandedClass := true, ariaHidden := some "false" },
        ariaExpanded := some "true",
        icon := header.icon.map (fun _ => "−") }

/-- `toggleHeader(header)` from `SITO ACCESSIBILE/script.js` lines 145-152:
a missing content region makes it a no-op, otherwise it collapses when the
content currently has the `expanded` class and expands when it does not. -/
def toggleHeader (header : FolderSection) : FolderSection :=
  match header.content with
  | none => header
  | some c => setCollapsedState header c.expandedClass

/-- A folder section whose ARIA attributes and icon glyph mirror its
`expanded` class — the state every `setCollapsedState` call establishes and
the invariant of the spec's data model. -/
def folderConsistent (h : FolderSection) : Bool :=
  match h.content with
  | none => true
  | some c =>
    h.ariaExpanded == some (if c.expandedClass then "true" else "false") &&
    c.ariaHidden == some (if c.expandedClass then "false" else "true") &&
    (h.icon == none || h.icon == some (if c.expandedClass then "−" else "+"))

/-- The attribute-defaulting pass of the `folderHeaders.forEach` loop
(`SITO ACCESSIBILE/script.js` lines 155-176): `role`, `tabindex`,
`aria-expanded` on the header and `aria-hidden`, `role` on the content are
set only when absent.  The event listeners the loop installs are modelled by
`toggleHeader`/`setCollapsedState` themselves. -/
def ensureHeaderDefaults (h : FolderSection) : FolderSection :=
  { h with
    role := some (h.role.getD "button"),
    tabindex := some (h.tabindex.getD "0"),
    ariaExpanded := some (h.ariaExpanded.getD "false"),
    content := h.content.map (fun c =>
      { c with
        ariaHidden := some (c.ariaHidden.getD "true"),
        role := some (c.role.getD "region") }) }

/-- Page-load initialisation of the folder headers in
`SITO ACCESSIBILE/script.js`: the attribute-defaulting loop (lines 155-220)
followed by `folderHeaders.forEach(header => setCollapsedState(header, true))`
(line 252).  No persisted state is consulted anywhere on this path. -/
def initFolderHeaders (hs : List FolderSection) : List FolderSection :=
  (hs.map ensureHeaderDefaults).map (fun h => setCollapsedState h true)

/-! ## Details persistence (unnamed/part_000 lines 244-278) -/

/-- Leading JSON whitespace removal. -/
def skipWs : List Char → List Char
  | [] => []
  | c :: cs => if c = ' ' ∨ c = '\t' ∨ c = '\n' ∨ c = '\r' then skipWs cs else c :: cs

/-- Characters of a JSON string key up to the closing quote (no escape
sequences, as in the keys `saveDetailsState` writes). -/
def parseKeyAux : List Char → Option (List Char × List Char)
  | [] => none
  | c :: cs =>
    if c = '"' then some ([], cs)
    else
      match parseKeyAux cs with
      | some (k, r) => some (c :: k, r)
      | none => none

/-- The JSON literals `true` and `false`. -/
def parseBoolLit (cs : List Char) : Option (Bool × List Char) :=
  if cs.take 4 = "true".data then some (true, cs.drop 4)
  else if cs.take 5 = "false".data then some (false, cs.drop 5)
  else none

/-- The `"key": bool` entries of a JSON object body, up to and including the
closing brace.  Fuelled recursion; a fuel of the input length is always
enough because every entry consumes at least one character. -/
def parseEntries : Nat → List Char → Option (List (String × Bool) × List Char)
  | 0, _ => none
  | fuel + 1, cs =>
    match skipWs cs with
    | '"' :: rest =>
      match parseKeyAux rest with
      | none => none
      | some (k, r1) =>
        match skipWs r1 with
        | ':' :: r3 =>
          match parseBoolLit (skipWs r3) with
          | none => none
          | some (b, r4) =>
            match skipWs r4 with
            | ',' :: r6 =>
              match parseEntries fuel r6 with
              | some (es, r7) => some ((String.mk k, b) :: es, r7)
              | none => none
            | '}' :: r6 => some ([(String.mk k, b)], r6)
            | _ => none
        | _ => none
    | _ => none

/-- `JSON.parse` as `restoreDetailsState` depends on it, restricted to the
serialised shape `saveDetailsState` produces: an object whose values are
booleans.  Any input outside that shape yields `.error`, modelling the
`SyntaxError` that `JSON.parse` throws on malformed input. -/
def parseDetailsJson (s : String) : Except String (List (String × Bool)) :=
  match skipWs s.data with
  | '{' :: rest =>
    match skipWs rest with
    | '}' :: r2 => if (skipWs r2).isEmpty then .ok [] else .error "SyntaxError"
    | r =>
      match parseEntries (s.length + 1) r with
      | some (es, rest2) =>
        if (skipWs rest2).isEmpty then .ok es else .error "SyntaxError"
      | none => .error "SyntaxError"
  | _ => .error "SyntaxError"

/-- Property lookup `detailsState[id]` on the parsed object: with duplicate
keys the later binding wins, as in a JavaScript object literal. -/
def lookupKey (st : List (String × Bool)) (k : String) : Option Bool :=
  match st.reverse.find? (fun e => e.1 == k) with
  | some e => some e.2
  | none => none

/-- A `<details>` element: its `id` attribute (`""` when absent, as in the
DOM), the text of its `summary` child if any, and its `open` flag. -/
structure DetailsElem where
  id : String
  summaryText : Option String
  openFlag : Bool
deriving DecidableEq

/-- `details.id || details.querySelector('summary')?.textContent?.trim()`
(`unnamed/part_000` line 261): an empty id falls back to the trimmed summary
text; a missing summary leaves the key falsy, modelled as `""`. -/
def detailsKey (d : DetailsElem) : String :=
  if d.id != "" then d.id
  else
    match d.summaryText with
    | some t => strTrim t
    | none => ""

/-- `restoreDetailsState` from `unnamed/part_000` lines 255-270: a missing
or empty stored entry is skipped; otherwise the entry is fed to `JSON.parse`
with no surrounding try/catch, so a parse failure propagates to the caller
(`.error`).  On success every details element whose key maps to `true` gets
`open = true` (the `setTimeout(..., 10)` only defers that same assignment,
so the settled state is modelled directly). -/
def restoreDetailsState (saved : Option String) (ds : List DetailsElem) :
    Except String (List DetailsElem) :=
  match saved with
  | none => .ok ds
  | some s =>
    if s != "" then
      match parseDetailsJson s with
      | .error e => .error e
      | .ok st =>
        .ok (ds.map (fun d =>
          let k := detailsKey d
          if k != "" && (lookupKey st k == some true) then { d with openFlag := true }
          else d))
    else .ok ds

/-! ## Theme handling (unnamed/part_000 lines 313-346) -/

/-- The theme-relevant page state: whether `document.body` carries the
`dark-theme` class, the text of the toggle button's `.icon` child (if the
button and child exist), and whether the toggle button (if present) carries
the `dark` class. -/
structure ThemeDom where
  darkClass : Bool
  icon : Option String
  btnDark : Option Bool
deriving DecidableEq

/-- `applicaTema(tema)` from `unnamed/part_000` lines 318-330: `dark` adds
the body class, sets the icon to the sun and marks the button; anything else
removes them and sets the moon.  The function deliberately never writes to
`localStorage`. -/
def applicaTema (tema : String) (d : ThemeDom) : ThemeDom :=
  if tema == "dark" then
    { darkClass := true,
      icon := d.icon.map (fun _ => "☀️"),
      btnDark := d.btnDark.map (fun _ => true) }
  else
    { darkClass := false,
      icon := d.icon.map (fun _ => "🌙"),
      btnDark := d.btnDark.map (fun _ => false) }

/-- `cambiaTema()` from `unnamed/part_000` lines 333-338: reads the current
theme off the body class and applies the opposite one. -/
def cambiaTema (d : ThemeDom) : ThemeDom :=
  let temaAttuale := if d.darkClass then "dark" else "light"
  let nuovoTema := if temaAttuale == "dark" then "light" else "dark"
  applicaTema nuovoTema d

/-- The theme name the page currently shows, as `cambiaTema` reads it. -/
def temaCorrente (d : ThemeDom) : String :=
  if d.darkClass then "dark" else "light"

/-- Page-load theme initialisation, `unnamed/part_000` line 341:
`applicaTema('light')`, executed unconditionally; no stored preference is
ever read on this path. -/
def temaInit (d : ThemeDom) : ThemeDom := applicaTema "light" d

/-! ## Numeric-aware descending sort (SITO ACCESSIBILE/script.js 70-94) -/

/-- A `.subfolder` item, reduced to the text of its `.folder-header h4`
child; `none` models a missing heading, which the script reads as `''`. -/
structure Subfolder where
  heading : Option String
deriving DecidableEq

/-- `(item.querySelector('.folder-header h4') || {}).textContent || ''`. -/
def subfolderHeading (s : Subfolder) : String := s.heading.getD ""

/-- Maximal runs of digits / non-digits of a character list (fuelled; the
input length is enough fuel because every run is non-empty). -/
def chunkifyFuel : Nat → List Char → List (List Char)
  | 0, _ => []
  | _, [] => []
  | fuel + 1, c :: cs =>
    (c :: cs.takeWhile (fun x => x.isDigit == c.isDigit)) ::
      chunkifyFuel fuel (cs.dropWhile (fun x => x.isDigit == c.isDigit))

def chunkify (cs : List Char) : List (List Char) := chunkifyFuel cs.length cs

def digitsVal (cs : List Char) : Nat :=
  cs.foldl (fun n c => n * 10 + (c.toNat - '0'.toNat)) 0

def cmpNat (a b : Nat) : Ordering :=
  if a < b then .lt else if b < a then .gt else .eq

/-- Case-insensitive code-point comparison of two character lists. -/
def cmpCharList : List Char → List Char → Ordering
  | [], [] => .eq
  | [], _ :: _ => .lt
  | _ :: _, [] => .gt
  | a :: as, b :: bs =>
    if a.toLower < b.toLower then .lt
    else if b.toLower < a.toLower then .gt
    else cmpCharList as bs

def isNumChunk (c : List Char) : Bool :=
  match c with
  | [] => false
  | x :: _ => x.isDigit

/-- One chunk comparison of the numeric-aware collation: digit runs compare
by value (ties broken by length, for leading zeroes), a digit run sorts
before a non-digit run, and text runs compare case-insensitively —
modelling `localeCompare(..., { numeric: true, sensitivity: 'base' })`. -/
def cmpChunk (a b : List Char) : Ordering :=
  match isNumChunk a, isNumChunk b with
  | true, true =>
    match cmpNat (digitsVal a) (digitsVal b) with
    | .eq => cmpNat a.length b.length
    | o => o
  | true, false => .lt
  | false, true => .gt
  | false, false => cmpCharList a b

def cmpChunks : List (List Char) → List (List Char) → Ordering
  | [], [] => .eq
  | [], _ :: _ => .lt
  | _ :: _, [] => .gt
  | a :: as, b :: bs =>
    match cmpChunk a b with
    | .eq => cmpChunks as bs
    | o => o

/-- `x.localeCompare(y, undefined, { numeric: true, sensitivity: 'base' })`
as an `Ordering` (negative / zero / positive). -/
def localeCompareNumeric (x y : String) : Ordering :=
  cmpChunks (chunkify x.data) (chunkify y.data)

/-- The comparator of `sortSubfoldersDesc` (lines 77-86):
`(a, b) => hb.trim().localeCompare(ha.trim(), undefined, {numeric: true, ...})`,
as the predicate "`a` sorts no later than `b`" (comparator value ≤ 0). -/
def subfolderLe (a b : Subfolder) : Bool :=
  match localeCompareNumeric (strTrim (subfolderHeading b)) (strTrim (subfolderHeading a)) with
  | .gt => false
  | _ => true

/-- Stable insertion of `x` into a run already ordered by `le`: `x` goes in
front of the first element it need not follow, matching the stable
`Array.prototype.sort` the script relies on. -/
def insertByLe (le : Subfolder → Subfolder → Bool) (x : Subfolder) :
    List Subfolder → List Subfolder
  | [] => [x]
  | y :: ys => if le x y then x :: y :: ys else y :: insertByLe le x ys

def sortByLe (le : Subfolder → Subfolder → Bool) : List Subfolder → List Subfolder
  | [] => []
  | x :: xs => insertByLe le x (sortByLe le xs)

/-- `sortSubfoldersDesc(containerId)` from `SITO ACCESSIBILE/script.js`
lines 70-90, on the subfolder items of an existing container: a stable sort
by the descending numeric-aware comparator, re-appended in order.  It is
invoked once per verbali container during initialisation (lines 93-94). -/
def sortSubfoldersDesc (items : List Subfolder) : List Subfolder :=
  sortByLe subfolderLe items

/-! ## Concrete page fixtures used by the witnesses -/

def exPanels : List Panel :=
  [⟨"panel-candidatura", true, "false"⟩, ⟨"panel-diapositive", false, "true"⟩]

def exToggles : List Toggle :=
  [⟨some "candidatura", true, "true"⟩, ⟨some "diapositive", false, "false"⟩]

def exDom : DocDom := ⟨exPanels, exToggles⟩

def exFolderContent : FolderContent := ⟨true, some "false", some "region"⟩

def exFolder : FolderSection :=
  ⟨"verbali", some exFolderContent, some "button", some "0", some "true", some "−"⟩

def exCollapsedContent : FolderContent := ⟨false, some "true", some "region"⟩

def exFolderCollapsed : FolderSection :=
  ⟨"verbali", some exCollapsedContent, some "button", some "0", some "false", some "+"⟩

/-! ## Helper lemmas about the panel switcher -/

theorem strAppendCancelLeft (a b c : String) (h : a ++ b = a ++ c) : b = c := by
  have hd := congrArg String.data h
  rw [String.data_append, String.data_append] at hd
  cases b with
  | mk db =>
    cases c with
    | mk dc => exact congrArg String.mk (List.append_cancel_left hd)

theorem getById_map_deactivate (pid : String) (ps : List Panel) :
    getByIdExists pid (ps.map deactivatePanel) = getByIdExists pid ps := by
  unfold getByIdExists
  rw [List.any_map]
  rfl

theorem all_inactive_cleared (ps : List Panel) :
    ∀ p ∈ ps.map deactivatePanel, p.active = false := by
  intro p hp
  rcases List.mem_map.mp hp with ⟨q, hq, rfl⟩
  rfl

theorem update_found_spec (pid : String) (ps : List Panel)
    (h0 : ∀ p ∈ ps, p.active = false)
    (hmem : ps.any (fun p => p.id == pid) = true) :
    (updateFirstWithId pid activatePanel ps).countP (fun p => p.active) = 1 ∧
    ∀ p ∈ updateFirstWithId pid activatePanel ps, p.active = true →
      p.id = pid ∧ p.ariaHidden = "false" := by
  induction ps with
  | nil => simp at hmem
  | cons p ps ih =>
    rw [List.any_cons] at hmem
    cases hp : (p.id == pid) with
    | true =>
      constructor
      · simp only [updateFirstWithId, hp, if_true]
        rw [List.countP_cons]
        have h2 : ps.countP (fun q => q.active) = 0 := by
          rw [List.countP_eq_zero]
          intro a ha
          simp [h0 a (List.mem_cons_of_mem _ ha)]
        simp [h2, activatePanel]
      · intro q hq hqa
        simp only [updateFirstWithId, hp, if_true] at hq
        rcases List.mem_cons.mp hq with rfl | hq2
        · exact ⟨eq_of_beq hp, rfl⟩
        · exact absurd hqa (by simp [h0 q (List.mem_cons_of_mem _ hq2)])
    | false =>
      have hmem2 : ps.any (fun q => q.id == pid) = true := by
        simpa [hp] using hmem
      have h02 : ∀ q ∈ ps, q.active = false := fun q hq => h0 q (List.mem_cons_of_mem _ hq)
      obtain ⟨ih1, ih2⟩ := ih h02 hmem2
      constructor
      · simp only [updateFirstWithId, hp, Bool.false_eq_true, if_false]
        rw [List.countP_cons]
        simp [ih1, h0 p (List.mem_cons_self p ps)]
      · intro q hq hqa
        simp only [updateFirstWithId, hp, Bool.false_eq_true, if_false] at hq
        rcases List.mem_cons.mp hq with rfl | hq2
        · exact absurd hqa (by simp [h0 q (List.mem_cons_self q ps)])
        · exact ih2 q hq2 hqa

theorem showDocPanel_found (name : String) (d : DocDom)
    (hfound : getByIdExists ("panel-" ++ name) d.panels = true) :
    (showDocPanel name d).panels.countP (fun p => p.active) = 1 ∧
    ∀ p ∈ (showDocPanel name d).panels, p.active = true →
      p.id = "panel-" ++ name ∧ p.ariaHidden = "false" := by
  have hcl : getByIdExists ("panel-" ++ name) (d.panels.map deactivatePanel) = true := by
    rw [getById_map_deactivate]; exact hfound
  have h := update_found_spec ("panel-" ++ name) (d.panels.map deactivatePanel)
    (all_inactive_cleared d.panels) hcl
  simpa only [showDocPanel, hcl, if_true] using h

theorem showDocPanel_fallback (name : String) (d : DocDom)
    (hnot : getByIdExists ("panel-" ++ name) d.panels = false)
    (hdef : getByIdExists "panel-candidatura" d.panels = true) :
    (showDocPanel name d).panels.countP (fun p => p.active) = 1 ∧
    ∀ p ∈ (showDocPanel name d).panels, p.active = true →
      p.id = "panel-candidatura" ∧ p.ariaHidden = "false" := by
  have hcl : getByIdExists ("panel-" ++ name) (d.panels.map deactivatePanel) = false := by
    rw [getById_map_deactivate]; exact hnot
  have hcl2 : getByIdExists "panel-candidatura" (d.panels.map deactivatePanel) = true := by
    rw [getById_map_deactivate]; exact hdef
  have h := update_found_spec "panel-candidatura" (d.panels.map deactivatePanel)
    (all_inactive_cleared d.panels) hcl2
  simpa only [showDocPanel, hcl, hcl2, if_true, if_false, Bool.false_eq_true] using h

theorem showDocPanel_toggles (name : String) (d : DocDom) :
    ∀ b ∈ (showDocPanel name d).toggles,
      b.active = (b.dataShow == some name) ∧
      b.ariaSelected = (if b.dataShow == some name then "true" else "false") := by
  intro b hb
  simp only [showDocPanel] at hb
  rcases List.mem_map.mp hb with ⟨b0, _, rfl⟩
  exact ⟨rfl, rfl⟩

theorem sitoShow_found (name : String) (d : DocDom)
    (hfound : getByIdExists
      (if name == "diapositive" then "panel-diapositive" else "panel-candidatura")
      d.panels = true) :
    (sitoShowDocPanel name d).panels.countP (fun p => p.active) = 1 ∧
    ∀ p ∈ (sitoShowDocPanel name d).panels, p.active = true →
      p.id = (if name == "diapositive" then "panel-diapositive" else "panel-candidatura") ∧
      p.ariaHidden = "false" := by
  have hcl : getByIdExists
      (if name == "diapositive" then "panel-diapositive" else "panel-candidatura")
      (d.panels.map deactivatePanel) = true := by
    rw [getById_map_deactivate]; exact hfound
  have h := update_found_spec
    (if name == "diapositive" then "panel-diapositive" else "panel-candidatura")
    (d.panels.map deactivatePanel) (all_inactive_cleared d.panels) hcl
  simpa only [sitoShowDocPanel, hcl, if_true] using h

theorem sitoShow_toggles (name : String) (d : DocDom) :
    ∀ b ∈ (sitoShowDocPanel name d).toggles,
      b.active = (b.dataShow == some (if name == "diapositive" then "diapositive" else "candidatura")) ∧
      b.ariaSelected = (if b.dataShow == some (if name == "diapositive" then "diapositive" else "candidatura")
        then "true" else "false") := by
  intro b hb
  simp only [sitoShowDocPanel] at hb
  rcases List.mem_map.mp hb with ⟨b0, _, rfl⟩
  exact ⟨rfl, rfl⟩

/-! ## Claim theorems -/

/-- Claim C1: after `showDocPanel(name)` runs, for every panel name —
recognised or not — exactly one DocPanel of the known set carries the active
state: all panels are first deactivated and then the panel with id
`panel-` + name is activated, with `panel-candidatura` activated instead
when no panel matches.  The first conjunct settles the generic switcher of
`unnamed/part_000`; the second settles the `SITO/script.js` variant over its
own panel universe (`panel-candidatura` and `panel-diapositive`). -/
theorem claim1_showDocPanel_exactly_one_active (name : String) (d : DocDom)
    (hdef : getByIdExists "panel-candidatura" d.panels = true) :
    ((showDocPanel name d).panels.countP (fun p => p.active) = 1 ∧
      ∀ p ∈ (showDocPanel name d).panels, p.active = true →
        p.id = (if getByIdExists ("panel-" ++ name) d.panels then "panel-" ++ name
          else "panel-candidatura")) ∧
    ((∀ p ∈ d.panels, p.id = "panel-candidatura" ∨ p.id = "panel-diapositive") →
      getByIdExists "panel-diapositive" d.panels = true →
      (sitoShowDocPanel name d).panels.countP (fun p => p.active) = 1 ∧
      ∀ p ∈ (sitoShowDocPanel name d).panels, p.active = true →
        p.id = (if getByIdExists ("panel-" ++ name) d.panels then "panel-" ++ name
          else "panel-candidatura")) := by
  constructor
  · cases hf : getByIdExists ("panel-" ++ name) d.panels with
    | true =>
      obtain ⟨h1, h2⟩ := showDocPanel_found name d hf
      refine ⟨h1, fun p hp ha => ?_⟩
      simp only [hf, if_true]
      exact (h2 p hp ha).1
    | false =>
      obtain ⟨h1, h2⟩ := showDocPanel_fallback name d hf hdef
      refine ⟨h1, fun p hp ha => ?_⟩
      simp only [hf, Bool.false_eq_true, if_false]
      exact (h2 p hp ha).1
  · intro hrestrict hdia
    have hpid : getByIdExists
        (if name == "diapositive" then "panel-diapositive" else "panel-candidatura")
        d.panels = true := by
      cases hb : (name == "diapositive") with
      | true => simpa [hb] using hdia
      | false => simpa [hb] using hdef
    obtain ⟨h1, h2⟩ := sitoShow_found name d hpid
    refine ⟨h1, fun p hp ha => ?_⟩
    have h3 := (h2 p hp ha).1
    cases hb : (name == "diapositive") with
    | true =>
      have hname : name = "diapositive" := eq_of_beq hb
      subst hname
      simp only [hb, if_true] at h3
      have happ : ("panel-" ++ "diapositive" : String) = "panel-diapositive" := by decide
      rw [happ]
      simp only [hdia, if_true]
      exact h3
    | false =>
      have hname : name ≠ "diapositive" := by
        intro hcontra; subst hcontra; simp at hb
      simp only [hb, Bool.false_eq_true, if_false] at h3
      cases hex : getByIdExists ("panel-" ++ name) d.panels with
      | false =>
        simp only [hex, Bool.false_eq_true, if_false]
        exact h3
      | true =>
        obtain ⟨q, hq, hqid⟩ := List.any_eq_true.mp hex
        have hqid2 : q.id = "panel-" ++ name := eq_of_beq hqid
        rcases hrestrict q hq with hcand | hdiap
        · simp only [hex, if_true]
          rw [h3, ← hqid2, hcand]
        · exfalso
          have h5 : ("panel-" : String) ++ name = "panel-" ++ "diapositive" := by
            rw [← hqid2, hdiap]; decide
          exact hname (strAppendCancelLeft "panel-" name "diapositive" h5)

/-- Witness for C1 at the unrecognised name `rtb` on a page holding the two
known panels: the fallback leaves exactly one panel active. -/
theorem claim1_witness :
    getByIdExists "panel-candidatura" exDom.panels = true ∧
    (showDocPanel "rtb" exDom).panels.countP (fun p => p.active) = 1 :=
  ⟨by decide, (claim1_showDocPanel_exactly_one_active "rtb" exDom (by decide)).1.1⟩

/-- Counterexample to claim C2: in the `SITO/script.js` handler a click on
an anchor with `href="#rtb"`, `data-doc="rtb"` and an existing target both
smooth-scrolls to the fragment's element and invokes the panel switch, so
the two behaviours are not mutually exclusive there. -/
theorem claim2_counterexample :
    (sitoAnchorClick (some "#rtb") (some "rtb") true).scrolledToTarget = true ∧
    (sitoAnchorClick (some "#rtb") (some "rtb") true).panelShown = some "rtb" := by
  decide

/-- Claim C2 as amended: for the `unnamed/part_000` handler the claim holds
as stated — exactly one of the two behaviours fires per resolving click and
the default navigation is suppressed; the `SITO/script.js` handler also
suppresses the default but always scrolls to the fragment's element, and
additionally invokes `showDocPanel` when a document name is present. -/
theorem claim2_amended (h : String) (dataDoc : Option String)
    (hh : (h != "" && strStartsWith h "#") = true) :
    (anchorClick (some h) dataDoc true).prevented = true ∧
    (sitoAnchorClick (some h) dataDoc true).prevented = true ∧
    (anchorClick (some h) dataDoc true).scrolledToTarget
      = !(anchorClick (some h) dataDoc true).panelShown.isSome ∧
    (dataDoc.getD "" ≠ "" →
      (anchorClick (some h) dataDoc true).panelShown = some (dataDoc.getD "") ∧
      (anchorClick (some h) dataDoc true).scrolledToTarget = false) ∧
    (dataDoc.getD "" = "" →
      (anchorClick (some h) dataDoc true).panelShown = none ∧
      (anchorClick (some h) dataDoc true).scrolledToTarget = true) ∧
    (sitoAnchorClick (some h) dataDoc true).scrolledToTarget = true ∧
    (dataDoc.getD "" ≠ "" →
      (sitoAnchorClick (some h) dataDoc true).panelShown = some (dataDoc.getD "")) := by
  by_cases hdoc : dataDoc.getD "" = ""
  · simp [anchorClick, sitoAnchorClick, hh, hdoc]
  · simp [anchorClick, sitoAnchorClick, hh, hdoc]

/-- Witness for the amended C2 at `href="#rtb"`, `data-doc="rtb"`. -/
theorem claim2_witness :
    (("#rtb" != "" && strStartsWith "#rtb" "#") = true) ∧
    (anchorClick (some "#rtb") (some "rtb") true).scrolledToTarget
      = !(anchorClick (some "#rtb") (some "rtb") true).panelShown.isSome :=
  ⟨by decide, (claim2_amended "#rtb" (some "rtb") (by decide)).2.2.1⟩

/-- Claim C8: on load — and on every later `hashchange`, which installs the
same `checkHashOnLoad` — a URL fragment equal to a known panel name makes
`showDocPanel` run with that name, so the matching panel is the one active
panel and every toggle for that name is marked selected. -/
theorem claim8_hash_resolution (locationHash hash : String) (d : DocDom)
    (hl : locationHash.drop 1 = hash)
    (hcont : knownPanelNames.contains hash = true)
    (hpanel : getByIdExists ("panel-" ++ hash) d.panels = true) :
    (checkHashOnLoad locationHash d).panels.countP (fun p => p.active) = 1 ∧
    (∀ p ∈ (checkHashOnLoad locationHash d).panels, p.active = true →
      p.id = "panel-" ++ hash ∧ p.ariaHidden = "false") ∧
    (∀ b ∈ (checkHashOnLoad locationHash d).toggles, b.dataShow = some hash →
      b.active = true ∧ b.ariaSelected = "true") := by
  have hmem : hash ∈ knownPanelNames := by
    rw [List.contains_eq_any_beq] at hcont
    obtain ⟨x, hx, hxe⟩ := List.any_eq_true.mp hcont
    rw [eq_of_beq hxe]; exact hx
  have hne : (hash != "") = true := by
    simp only [knownPanelNames, List.mem_cons, List.not_mem_nil, or_false] at hmem
    rcases hmem with rfl | rfl | rfl <;> decide
  have hcond : (hash != "" && knownPanelNames.contains hash) = true := by
    rw [hne, hcont]; rfl
  have hrw : checkHashOnLoad locationHash d = showDocPanel hash d := by
    simp only [checkHashOnLoad, hcond, hl, eq_self_iff_true, if_true]
  rw [hrw]
  obtain ⟨h1, h2⟩ := showDocPanel_found hash d hpanel
  refine ⟨h1, fun p hp ha => h2 p hp ha, fun b hb hds => ?_⟩
  obtain ⟨ha, hs⟩ := showDocPanel_toggles hash d b hb
  have hb2 : (b.dataShow == some hash) = true := by rw [hds]; simp
  rw [hb2] at ha hs
  exact ⟨ha, by simpa using hs⟩

/-- Witness for C8: loading with fragment `#diapositive` over the two-panel
page activates exactly one panel. -/
theorem claim8_witness :
    ("#diapositive".drop 1 = "diapositive") ∧
    knownPanelNames.contains "diapositive" = true ∧
    getByIdExists ("panel-" ++ "diapositive") exDom.panels = true ∧
    (checkHashOnLoad "#diapositive" exDom).panels.countP (fun p => p.active) = 1 :=
  ⟨by decide, by decide, by decide,
    (claim8_hash_resolution "#diapositive" "diapositive" exDom (by decide) (by decide)
      (by decide)).1⟩

/-- Claim C9: the `SITO/script.js` switcher collapses every name other than
`diapositive` — `rtb` included — onto the candidatura panel: the one active
panel is `panel-candidatura` and exactly the toggles with
`data-show="candidatura"` are marked active and selected. -/
theorem claim9_sito_maps_to_candidatura (name : String) (d : DocDom)
    (hne : name ≠ "diapositive")
    (hdef : getByIdExists "panel-candidatura" d.panels = true) :
    (sitoShowDocPanel name d).panels.countP (fun p => p.active) = 1 ∧
    (∀ p ∈ (sitoShowDocPanel name d).panels, p.active = true → p.id = "panel-candidatura") ∧
    (∀ b ∈ (sitoShowDocPanel name d).toggles,
      b.active = (b.dataShow == some "candidatura") ∧
      b.ariaSelected = (if b.dataShow == some "candidatura" then "true" else "false")) := by
  have hb : (name == "diapositive") = false := beq_eq_false_iff_ne.mpr hne
  have hpid : getByIdExists
      (if name == "diapositive" then "panel-diapositive" else "panel-candidatura")
      d.panels = true := by
    simpa [hb] using hdef
  obtain ⟨h1, h2⟩ := sitoShow_found name d hpid
  refine ⟨h1, fun p hp ha => ?_, fun b hbm => ?_⟩
  · have h3 := (h2 p hp ha).1
    simpa [hb] using h3
  · have h4 := sitoShow_toggles name d b hbm
    simpa [hb] using h4

/-- Witness for C9 at the known-but-unmapped name `rtb`. -/
theorem claim9_witness :
    ("rtb" ≠ "diapositive" ∧ getByIdExists "panel-candidatura" exDom.panels = true) ∧
    (sitoShowDocPanel "rtb" exDom).panels.countP (fun p => p.active) = 1 :=
  ⟨⟨by decide, by decide⟩, (claim9_sito_maps_to_candidatura "rtb" exDom (by decide) (by decide)).1⟩

/-! ## Helper lemmas about the folder sections -/

theorem setCollapsed_of_content (g : FolderSection) (c0 : FolderContent)
    (hgc : g.content = some c0) :
    setCollapsedState g true =
      { g with
        content := some { c0 with expandedClass := false, ariaHidden := some "true" },
        ariaExpanded := some "false",
        icon := g.icon.map (fun _ => "+") } := by
  unfold setCollapsedState
  rw [hgc]
  rfl

theorem initFolders_collapsed (hs : List FolderSection) (f : FolderSection)
    (c : FolderContent) (hf : f ∈ initFolderHeaders hs) (hc : f.content = some c) :
    c.expandedClass = false ∧ c.ariaHidden = some "true" ∧
    f.ariaExpanded = some "false" ∧ (f.icon = none ∨ f.icon = some "+") := by
  simp only [initFolderHeaders] at hf
  rcases List.mem_map.mp hf with ⟨g, _, rfl⟩
  cases hgc : g.content with
  | none =>
    have hid : setCollapsedState g true = g := by
      unfold setCollapsedState; rw [hgc]
    rw [hid, hgc] at hc
    exact absurd hc (by simp)
  | some c0 =>
    rw [setCollapsed_of_content g c0 hgc] at hc ⊢
    have hc2 : c = { c0 with expandedClass := false, ariaHidden := some "true" } :=
      (Option.some.inj hc).symm
    subst hc2
    refine ⟨rfl, rfl, rfl, ?_⟩
    cases g.icon <;> simp

/-- Claim C10: in the accessible variant page-load initialisation leaves
every folder header with an existing content region collapsed, regardless
of the markup's initial attributes: no `expanded` class, `aria-hidden`
`true` on the content, `aria-expanded` `false` on the header, and a `+`
toggle icon whenever an icon element exists. -/
theorem claim10_init_all_collapsed (hs : List FolderSection) (f : FolderSection)
    (c : FolderContent) (hf : f ∈ initFolderHeaders hs) (hc : f.content = some c) :
    c.expandedClass = false ∧ c.ariaHidden = some "true" ∧
    f.ariaExpanded = some "false" ∧ (f.icon = none ∨ f.icon = some "+") :=
  initFolders_collapsed hs f c hf hc

/-- Witness for C10 on a section that starts out expanded in the markup. -/
theorem claim10_witness :
    (exFolderCollapsed ∈ initFolderHeaders [exFolder] ∧
      exFolderCollapsed.content = some exCollapsedContent) ∧
    (exCollapsedContent.expandedClass = false ∧ exCollapsedContent.ariaHidden = some "true" ∧
      exFolderCollapsed.ariaExpanded = some "false" ∧
      (exFolderCollapsed.icon = none ∨ exFolderCollapsed.icon = some "+")) :=
  ⟨⟨by decide, by decide⟩,
    claim10_init_all_collapsed [exFolder] exFolderCollapsed exCollapsedContent
      (by decide) (by decide)⟩

/-- Claim C4: on a folder section with an existing content region whose
ARIA state and icon mirror its `expanded` class — the state every
`setCollapsedState` call establishes — toggling twice restores the original
expanded flag, `aria-hidden`, `aria-expanded` and toggle-icon glyph. -/
theorem claim4_toggle_round_trip (h : FolderSection) (c : FolderContent)
    (hc : h.content = some c) (hcons : folderConsistent h = true) :
    toggleHeader (toggleHeader h) = h := by
  obtain ⟨key, content, role2, tab, ariaExp, icon⟩ := h
  dsimp only at hc
  subst hc
  obtain ⟨exp, ariaHidden, crole⟩ := c
  simp only [folderConsistent, Bool.and_eq_true, beq_iff_eq, Bool.or_eq_true] at hcons
  obtain ⟨⟨h1, h2⟩, h3⟩ := hcons
  subst h1
  cases exp <;> rcases h3 with h3 | h3 <;> subst h3 <;> rw [h2] <;> rfl

/-- Witness for C4 on a consistent expanded `verbali` section. -/
theorem claim4_witness :
    (exFolder.content = some exFolderContent ∧ folderConsistent exFolder = true) ∧
    toggleHeader (toggleHeader exFolder) = exFolder :=
  ⟨⟨by decide, by decide⟩,
    claim4_toggle_round_trip exFolder exFolderContent (by decide) (by decide)⟩

/-- Counterexample to claim C5: with persisted state mapping `verbali` to
`true`, the accessible variant's initialisation still leaves the `verbali`
section collapsed — `aria-expanded` `false`, `aria-hidden` `true` and a `+`
icon — because the folder path never reads storage, contradicting the
claimed expanded state and expanded glyph. -/
theorem claim5_counterexample :
    lookupKey [("verbali", true)] "verbali" = some true ∧
    initFolderHeaders [exFolder] = [exFolderCollapsed] ∧
    exFolderCollapsed.ariaExpanded = some "false" ∧
    exFolderCollapsed.icon = some "+" ∧
    exCollapsedContent.ariaHidden = some "true" := by
  decide

/-- Claim C5 as amended: persisted expansion state is never consulted for
the accessible variant's folder sections — after initialisation the section
keyed `verbali` is collapsed even when storage maps `verbali` to `true`;
the only persisted-state restore in the repository is `restoreDetailsState`
of `unnamed/part_000`, which sets `open = true` on the `details` element
keyed `verbali` (with no ARIA or icon handling). -/
theorem claim5_amended (st : List (String × Bool)) (hs : List FolderSection)
    (f : FolderSection) (c : FolderContent)
    (_hst : lookupKey st "verbali" = some true)
    (hf : f ∈ initFolderHeaders hs)
    (_hkey : f.key = "verbali")
    (hc : f.content = some c) :
    (c.expandedClass = false ∧ c.ariaHidden = some "true" ∧
      f.ariaExpanded = some "false" ∧ (f.icon = none ∨ f.icon = some "+")) ∧
    restoreDetailsState (some "\x7b\x22verbali\x22:true\x7d") [⟨"verbali", none, false⟩]
      = .ok [⟨"verbali", none, true⟩] :=
  ⟨initFolders_collapsed hs f c hf hc, rfl⟩

/-- Witness for the amended C5. -/
theorem claim5_witness :
    (lookupKey [("verbali", true)] "verbali" = some true ∧
      exFolderCollapsed ∈ initFolderHeaders [exFolder] ∧
      exFolderCollapsed.key = "verbali" ∧
      exFolderCollapsed.content = some exCollapsedContent) ∧
    ((exCollapsedContent.expandedClass = false ∧ exCollapsedContent.ariaHidden = some "true" ∧
      exFolderCollapsed.ariaExpanded = some "false" ∧
      (exFolderCollapsed.icon = none ∨ exFolderCollapsed.icon = some "+")) ∧
    restoreDetailsState (some "\x7b\x22verbali\x22:true\x7d") [⟨"verbali", none, false⟩]
      = .ok [⟨"verbali", none, true⟩]) :=
  ⟨⟨by decide, by decide, by decide, by decide⟩,
    claim5_amended [("verbali", true)] [exFolder] exFolderCollapsed exCollapsedContent
      (by decide) (by decide) (by decide) (by decide)⟩

/-- Counterexample to claim C3: `restoreDetailsState` feeds the stored
entry to `JSON.parse` with no try/catch, so the malformed persisted string
consisting of a lone opening brace makes it throw to the caller instead of
being ignored. -/
theorem claim3_counterexample :
    restoreDetailsState (some "\x7b") [⟨"verbali", none, false⟩] = .error "SyntaxError" := rfl

/-- Claim C3 as amended: a missing persisted entry is treated as no
persisted state and changes nothing, and a malformed entry applies no UI
state change — but it is not ignored: the parse error propagates out of
`restoreDetailsState` to its caller. -/
theorem claim3_amended (s e : String) (ds : List DetailsElem)
    (hne : s ≠ "") (hbad : parseDetailsJson s = .error e) :
    restoreDetailsState none ds = .ok ds ∧
    restoreDetailsState (some s) ds = .error e := by
  refine ⟨rfl, ?_⟩
  have hne2 : (s != "") = true := bne_iff_ne.mpr hne
  simp only [restoreDetailsState, hne2, if_true, hbad]

/-- Witness for the amended C3 at the malformed stored string `"{"`. -/
theorem claim3_witness :
    (("\x7b" : String) ≠ "" ∧ parseDetailsJson "\x7b" = .error "SyntaxError") ∧
    restoreDetailsState (some "\x7b") ([] : List DetailsElem) = .error "SyntaxError" :=
  ⟨⟨by decide, rfl⟩, (claim3_amended "\x7b" "SyntaxError" [] (by decide) rfl).2⟩

/-- Claim C6: in the hard-coded-light variant (`unnamed/part_000`) the
boot theme is `light` for every prior page state — the script never reads a
stored preference on this path — and each toggle click flips the body class
exactly between `light` and `dark`, never reaching a third value. -/
theorem claim6_theme_light_boot_and_flip (d : ThemeDom) :
    temaCorrente (temaInit d) = "light" ∧
    (cambiaTema d).darkClass = !d.darkClass ∧
    temaCorrente (cambiaTema d) = (if temaCorrente d = "light" then "dark" else "light") ∧
    (temaCorrente (cambiaTema d) = "light" ∨ temaCorrente (cambiaTema d) = "dark") := by
  obtain ⟨dark, icon, btn⟩ := d
  cases dark
  · exact ⟨rfl, rfl, rfl, Or.inr rfl⟩
  · exact ⟨rfl, rfl, rfl, Or.inl rfl⟩

/-- Claim C7: the numeric-aware descending sort applied once at folder
initialisation orders the headings `Verbale 2`, `Verbale 10`, `Verbale 1`
as `Verbale 10`, `Verbale 2`, `Verbale 1`. -/
theorem claim7_sort_verbali_desc :
    (sortSubfoldersDesc [⟨some "Verbale 2"⟩, ⟨some "Verbale 10"⟩, ⟨some "Verbale 1"⟩]).map
      subfolderHeading = ["Verbale 10", "Verbale 2", "Verbale 1"] := by
  decide
